import Mathlib

/-!
Verification of the antipodal-explorer coordinate and animation core.

The JavaScript source keeps two iterative rewrites of the `EarthVisualizer`
class in `src/js/earth-visualization.js` (the second copy starts near line
1036); where the two copies differ, separate definitions carry the suffix
`V1` (first copy) and `V2` (second copy).  Pure numeric code is embedded over
`Rat` (exact arithmetic model of the scripts float arithmetic) when only
field operations and comparisons occur, and over `Real` when trigonometry is
involved.
-/

/-- Cartesian triple, the shallow embedding of `THREE.Vector3` data. -/
structure V3 (α : Type) where
  x : α
  y : α
  z : α
deriving DecidableEq, Repr

/-- Antipode of a latitude/longitude pair, from `src/js/app.js` lines
341-350: `antipodalLat = -lat`; `antipodalLng = lng + 180`, reduced by 360
when it exceeds 180. -/
def calculateAntipode (lat lng : ℚ) : ℚ × ℚ :=
  let antipodalLat := -lat
  let antipodalLng := lng + 180
  if 180 < antipodalLng then (antipodalLat, antipodalLng - 360)
  else (antipodalLat, antipodalLng)

/-- Point `i` of the quadratic dig path of the first visualizer copy,
`src/js/earth-visualization.js` lines 467-496: for `i <= segments / 2` the
quadratic Bezier from the start position to the center with middle control
point at the origin, afterwards the quadratic from the center to the end
position.  The division `segments / 2` is exact (JS float division), so the
branch test and the parameter are taken over `Rat`. -/
def drawDigPathPointQuad (startPos endPos : V3 ℚ) (segments i : ℕ) : V3 ℚ :=
  if (i : ℚ) ≤ (segments : ℚ) / 2 then
    let segmentT : ℚ := (i : ℚ) / ((segments : ℚ) / 2)
    ⟨(1 - segmentT) * (1 - segmentT) * startPos.x + 2 * (1 - segmentT) * segmentT * 0 +
        segmentT * segmentT * 0,
      (1 - segmentT) * (1 - segmentT) * startPos.y + 2 * (1 - segmentT) * segmentT * 0 +
        segmentT * segmentT * 0,
      (1 - segmentT) * (1 - segmentT) * startPos.z + 2 * (1 - segmentT) * segmentT * 0 +
        segmentT * segmentT * 0⟩
  else
    let segmentT : ℚ := ((i : ℚ) - (segments : ℚ) / 2) / ((segments : ℚ) / 2)
    ⟨(1 - segmentT) * (1 - segmentT) * 0 + 2 * (1 - segmentT) * segmentT * 0 +
        segmentT * segmentT * endPos.x,
      (1 - segmentT) * (1 - segmentT) * 0 + 2 * (1 - segmentT) * segmentT * 0 +
        segmentT * segmentT * endPos.y,
      (1 - segmentT) * (1 - segmentT) * 0 + 2 * (1 - segmentT) * segmentT * 0 +
        segmentT * segmentT * endPos.z⟩

/-- The point list built by `drawDigPath` of the first copy: the loop
`for (let i = 0; i <= segments; i++)` pushes one point per index, so
`segments + 1` points in total (the source fixes `segments = 60`). -/
def drawDigPathPointsQuad (startPos endPos : V3 ℚ) (segments : ℕ) : List (V3 ℚ) :=
  (List.range (segments + 1)).map (drawDigPathPointQuad startPos endPos segments)

/-- Point `i` of the linear dig path of the second visualizer copy,
`src/js/earth-visualization.js` lines 2366-2394: linear interpolation from
the start position to the center for `i <= segments / 2`, then from the
center to the end position. -/
def drawDigPathPointLin (startPos endPos : V3 ℚ) (segments i : ℕ) : V3 ℚ :=
  if (i : ℚ) ≤ (segments : ℚ) / 2 then
    let segmentT : ℚ := (i : ℚ) / ((segments : ℚ) / 2)
    ⟨(1 - segmentT) * startPos.x, (1 - segmentT) * startPos.y, (1 - segmentT) * startPos.z⟩
  else
    let segmentT : ℚ := ((i : ℚ) - (segments : ℚ) / 2) / ((segments : ℚ) / 2)
    ⟨segmentT * endPos.x, segmentT * endPos.y, segmentT * endPos.z⟩

/-- The point list built by `drawDigPath` of the second copy (the source
fixes `segments = 50`). -/
def drawDigPathPointsLin (startPos endPos : V3 ℚ) (segments : ℕ) : List (V3 ℚ) :=
  (List.range (segments + 1)).map (drawDigPathPointLin startPos endPos segments)

/-- Per-frame increment of the journey loop of the first copy, line 608:
`const pathSpeed = 60 / points.length` with `points.length = 61`. -/
def pathSpeed : ℚ := 60 / 61

/-- Value of `pathIndex` at the start of frame `k` of `animateJourney`
(first copy): starts at 0, advances by `pathSpeed` per frame, clamped to
`points.length - 1 = 60` when it reaches `points.length = 61`
(lines 697-703). -/
def journeyPathIndex : ℕ → ℚ
  | 0 => 0
  | k + 1 =>
    let p := journeyPathIndex k + pathSpeed
    if 61 ≤ p then 60 else p

/-- Progress displayed at frame `k`, line 650:
`Math.floor((pathIndex / points.length) * 100)`. -/
def journeyProgress (k : ℕ) : ℤ :=
  Int.floor (journeyPathIndex k / 61 * 100)

/-- State visible to one frame of the digging loop of the first copy: the
fractional path index, and whether a fire-and-forget camera tween started by
`animateCameraToPosition` is still in flight. -/
structure FrameState where
  pathIndex : ℚ
  cameraAnimInFlight : Bool
deriving DecidableEq

/-- The unconditional index advance at the end of each `animateJourney`
frame, lines 697-703: `pathIndex += pathSpeed`, clamped; nothing in the loop
consults any camera-animation state before advancing. -/
def animateJourneyAdvance (s : FrameState) : FrameState :=
  let p := s.pathIndex + pathSpeed
  { s with pathIndex := if 61 ≤ p then 60 else p }

/-- Status messages emitted through `updateStatusMessage`; constructor names
stand for the literal strings of the source (wording is cosmetic per the
spec). -/
inductive Msg
  | beginningToDig
  | reachedCore
  | reachedDestination
  | journeyComplete
deriving DecidableEq

/-- Observable state of the first visualizer copy used by the
journey/reset claims: the `isAnimating` flag, marker and path presence, a
count of how many times `drawDigPath` has constructed a fresh path group,
the traveler mesh, and the log of emitted status messages. -/
structure VizState where
  isAnimating : Bool
  startMarker : Bool
  endMarker : Bool
  digLine : Bool
  digLinesBuilt : ℕ
  traveler : Bool
  statusLog : List Msg
deriving DecidableEq

/-- Synchronous prefix of `startJourneyAnimation` of the first copy, lines
576-599: no reentrancy check of any kind; it sets `isAnimating = true`,
rebuilds the dig path (`drawDigPath` replaces `digLine` with a freshly
constructed group), and schedules `focusOnLocation` whose completion
callback is `focusStartCallbackV1`. -/
def startJourneyAnimationV1 (s : VizState) : VizState :=
  { s with isAnimating := true, digLine := true, digLinesBuilt := s.digLinesBuilt + 1 }

/-- Completion callback of the initial focus-on-start camera animation,
lines 600-625: it unconditionally emits the status message
`Beginning to dig...` and creates the traveler sphere; only the
`animateJourney` loop started afterwards checks `isAnimating` (line 628)
before doing anything. -/
def focusStartCallbackV1 (s : VizState) : VizState :=
  { s with statusLog := Msg.beginningToDig :: s.statusLog, traveler := true }

/-- The `reset` method of the first copy, lines 891-945: removes both
markers and the dig path, clears `isAnimating`, and animates the camera
home.  It does not emit status messages, does not remove the traveler, and
does not cancel any pending callback. -/
def resetV1 (s : VizState) : VizState :=
  { s with startMarker := false, endMarker := false, digLine := false,
           isAnimating := false }

/-- Observable state of the second visualizer copy relevant to reentrancy. -/
structure VizStateB where
  isAnimating : Bool
  hasStartMarker : Bool
  hasEndMarker : Bool
  digLinesBuilt : ℕ
deriving DecidableEq

/-- Synchronous prefix of `startJourneyAnimation` of the second copy, lines
2465-2487: returns `false` without touching state when a marker is missing
or when `isAnimating` is already set (logging only); otherwise sets the flag
and rebuilds the dig path. -/
def startJourneyAnimationV2 (s : VizStateB) : Bool × VizStateB :=
  if ¬(s.hasStartMarker = true ∧ s.hasEndMarker = true) then (false, s)
  else if s.isAnimating = true then (false, s)
  else (true, { s with isAnimating := true, digLinesBuilt := s.digLinesBuilt + 1 })

/-- Forward projection of the visualizer (identical in both copies, lines
247-256 and 1958-1967): `phi = (90 - lat) * pi / 180`,
`theta = (lng + 180) * pi / 180`, point
`(-r sin phi cos theta, r cos phi, r sin phi sin theta)`. -/
noncomputable def latLngTo3d (lat lng radius : ℝ) : V3 ℝ :=
  ⟨-radius * Real.sin ((90 - lat) * (Real.pi / 180)) *
      Real.cos ((lng + 180) * (Real.pi / 180)),
    radius * Real.cos ((90 - lat) * (Real.pi / 180)),
    radius * Real.sin ((90 - lat) * (Real.pi / 180)) *
      Real.sin ((lng + 180) * (Real.pi / 180))⟩

/-- Euclidean length of a vector, the embedding of `THREE.Vector3.length`. -/
noncomputable def vecLength (p : V3 ℝ) : ℝ :=
  Real.sqrt (p.x ^ 2 + p.y ^ 2 + p.z ^ 2)

/-- The embedding of `THREE.Vector3.normalize` (division by the length). -/
noncomputable def normalize3 (p : V3 ℝ) : V3 ℝ :=
  ⟨p.x / vecLength p, p.y / vecLength p, p.z / vecLength p⟩

/-- Modelled from the spec: the two-argument arctangent used by the source
through `Math.atan2(y, x)` (the external `Math` builtin is not part of the
repository).  Standard JS semantics over the reals: result in the interval
from `-pi` to `pi`, by quadrant; signed-zero distinctions of floats do not
exist over `Real`. -/
noncomputable def atan2 (y x : ℝ) : ℝ :=
  if 0 < x then Real.arctan (y / x)
  else if x < 0 then
    (if 0 ≤ y then Real.arctan (y / x) + Real.pi else Real.arctan (y / x) - Real.pi)
  else
    (if 0 < y then Real.pi / 2 else if y < 0 then -(Real.pi / 2) else 0)

/-- Inverse conversion of the second copy, lines 3654-3666: normalize the
point, then `lat = 90 - acos(dir.y) * 180 / pi`,
`lng = atan2(dir.z, dir.x) * 180 / pi`, reduced by 360 when above 180. -/
noncomputable def pointToLatLng (p : V3 ℝ) : ℝ × ℝ :=
  (90 - Real.arccos (normalize3 p).y * (180 / Real.pi),
    if 180 < atan2 (normalize3 p).z (normalize3 p).x * (180 / Real.pi) then
      atan2 (normalize3 p).z (normalize3 p).x * (180 / Real.pi) - 360
    else
      atan2 (normalize3 p).z (normalize3 p).x * (180 / Real.pi))

/-- The constructor of the first copy sets `this.earthRadius = 100`
(line 27). -/
noncomputable def earthRadius : ℝ := 100

/-- Position computed and returned by `setMarkerPosition` (first copy,
lines 259-262): the projection at radius `earthRadius * 1.02`. -/
noncomputable def setMarkerPositionPos (lat lng : ℝ) : V3 ℝ :=
  latLngTo3d lat lng (earthRadius * 1.02)

/-- Start or end point of the dig path (first copy, lines 459-460): the
projection at radius `earthRadius` exactly. -/
noncomputable def digPathEndpointPos (lat lng : ℝ) : V3 ℝ :=
  latLngTo3d lat lng earthRadius

/-- Easing curve of `animateCameraTo`, lines 445-447:
`t < 0.5 ? 4 t^3 : 1 - (-2t + 2)^3 / 2`. -/
noncomputable def easeInOutCubic (t : ℝ) : ℝ :=
  if t < 0.5 then 4 * t * t * t else 1 - (-2 * t + 2) ^ 3 / 2

/-- The embedding of `THREE.Vector3.lerpVectors`:
componentwise `a + (b - a) * alpha`. -/
noncomputable def lerpVectors (v w : V3 ℝ) (alpha : ℝ) : V3 ℝ :=
  ⟨v.x + (w.x - v.x) * alpha, v.y + (w.y - v.y) * alpha, v.z + (w.z - v.z) * alpha⟩

/-- Quaternion data, the embedding of `THREE.Quaternion`. -/
structure Quat where
  x : ℝ
  y : ℝ
  z : ℝ
  w : ℝ

/-- Modelled from the spec: quaternion normalization of the external
renderer (`THREE.Quaternion.normalize`): identity at length zero, otherwise
division by the length. -/
noncomputable def quatNormalize (q : Quat) : Quat :=
  if Real.sqrt (q.x ^ 2 + q.y ^ 2 + q.z ^ 2 + q.w ^ 2) = 0 then ⟨0, 0, 0, 1⟩
  else
    ⟨q.x / Real.sqrt (q.x ^ 2 + q.y ^ 2 + q.z ^ 2 + q.w ^ 2),
      q.y / Real.sqrt (q.x ^ 2 + q.y ^ 2 + q.z ^ 2 + q.w ^ 2),
      q.z / Real.sqrt (q.x ^ 2 + q.y ^ 2 + q.z ^ 2 + q.w ^ 2),
      q.w / Real.sqrt (q.x ^ 2 + q.y ^ 2 + q.z ^ 2 + q.w ^ 2)⟩

/-- The float unit of JS, `Number.EPSILON = 2 ^ (-52)`, as a real constant. -/
noncomputable def jsEpsilon : ℝ := (2 : ℝ) ^ (-(52 : ℤ))

/-- Modelled from the spec: spherical linear interpolation of orientations
(`THREE.Quaternion.slerpQuaternions` of the external renderer r139, which
the visualizer calls at line 420; the spec glossary fixes slerp as the
orientation interpolation).  Early returns at `t = 0` and `t = 1`, shortest
path by sign flip, linear fallback when the angle is numerically zero, and
the trigonometric ratio formula otherwise. -/
noncomputable def slerpQuaternions (qa qb : Quat) (t : ℝ) : Quat :=
  if t = 0 then qa
  else if t = 1 then qb
  else
    let cosHalfTheta0 := qa.w * qb.w + qa.x * qb.x + qa.y * qb.y + qa.z * qb.z
    let qb2 : Quat := if cosHalfTheta0 < 0 then ⟨-qb.x, -qb.y, -qb.z, -qb.w⟩ else qb
    let cosHalfTheta := if cosHalfTheta0 < 0 then -cosHalfTheta0 else cosHalfTheta0
    if 1 ≤ cosHalfTheta then qa
    else
      let sqrSinHalfTheta := 1 - cosHalfTheta * cosHalfTheta
      if sqrSinHalfTheta ≤ jsEpsilon then
        quatNormalize
          ⟨(1 - t) * qa.x + t * qb2.x, (1 - t) * qa.y + t * qb2.y,
            (1 - t) * qa.z + t * qb2.z, (1 - t) * qa.w + t * qb2.w⟩
      else
        let sinHalfTheta := Real.sqrt sqrSinHalfTheta
        let halfTheta := atan2 sinHalfTheta cosHalfTheta
        let ratioA := Real.sin ((1 - t) * halfTheta) / sinHalfTheta
        let ratioB := Real.sin (t * halfTheta) / sinHalfTheta
        ⟨qa.x * ratioA + qb2.x * ratioB, qa.y * ratioA + qb2.y * ratioB,
          qa.z * ratioA + qb2.z * ratioB, qa.w * ratioA + qb2.w * ratioB⟩

/-- Data captured by `animateCameraTo` when it starts (lines 388-400): start
position and rotation of the camera, target position, the precomputed end
rotation `endQuat`, and the duration. -/
structure CameraAnim where
  startPosition : V3 ℝ
  targetPosition : V3 ℝ
  startRotation : Quat
  endQuat : Quat
  duration : ℝ

/-- The clamped progress of `updateCamera`, line 411:
`Math.min(elapsed / duration, 1)`. -/
noncomputable def cameraProgress (a : CameraAnim) (elapsed : ℝ) : ℝ :=
  min (elapsed / a.duration) 1

/-- Camera position written by `updateCamera` at a given elapsed time,
line 417: `lerpVectors(startPosition, targetPosition, ease)` with
`ease = easeInOutCubic(progress)`. -/
noncomputable def cameraPositionAt (a : CameraAnim) (elapsed : ℝ) : V3 ℝ :=
  lerpVectors a.startPosition a.targetPosition (easeInOutCubic (cameraProgress a elapsed))

/-- Camera orientation written by `updateCamera` at a given elapsed time,
line 420: `slerpQuaternions(startRotation, endQuat, ease)` with the same
eased progress as the position. -/
noncomputable def cameraQuaternionAt (a : CameraAnim) (elapsed : ℝ) : Quat :=
  slerpQuaternions a.startRotation a.endQuat (easeInOutCubic (cameraProgress a elapsed))

/-- C4: for every latitude and every longitude strictly above -180 and at
most 180, applying `calculateAntipode` twice recovers the pair exactly (so
in particular within 1e-9); and the two boundary writings of the antimeridian,
180 and -180, are both normalized to the same canonical antipodal longitude 0. -/
theorem c4_antipode_involution :
    (∀ lat lng : ℚ, -180 < lng → lng ≤ 180 →
      calculateAntipode (calculateAntipode lat lng).1 (calculateAntipode lat lng).2 =
        (lat, lng)) ∧
    (∀ lat : ℚ,
      (calculateAntipode lat 180).2 = 0 ∧ (calculateAntipode lat (-180)).2 = 0) := by
  constructor
  · intro lat lng h1 h2
    by_cases h : (0 : ℚ) < lng
    · have e1 : calculateAntipode lat lng = (-lat, lng - 180) := by
        simp only [calculateAntipode]
        rw [if_pos (by linarith : (180 : ℚ) < lng + 180)]
        simp only [Prod.mk.injEq]
        exact ⟨trivial, by ring⟩
      rw [e1]
      show calculateAntipode (-lat) (lng - 180) = (lat, lng)
      simp only [calculateAntipode]
      rw [if_neg (by linarith : ¬(180 : ℚ) < lng - 180 + 180)]
      simp only [Prod.mk.injEq]
      exact ⟨by ring, by ring⟩
    · have e1 : calculateAntipode lat lng = (-lat, lng + 180) := by
        simp only [calculateAntipode]
        rw [if_neg (by linarith : ¬(180 : ℚ) < lng + 180)]
      rw [e1]
      show calculateAntipode (-lat) (lng + 180) = (lat, lng)
      simp only [calculateAntipode]
      rw [if_pos (by linarith : (180 : ℚ) < lng + 180 + 180)]
      simp only [Prod.mk.injEq]
      exact ⟨by ring, by ring⟩
  · intro lat
    constructor <;> norm_num [calculateAntipode]

/-- C4 witness: the involution at a concrete pair and the two boundary
normalizations at a concrete latitude. -/
theorem c4_antipode_involution_witness :
    calculateAntipode (calculateAntipode 41 29).1 (calculateAntipode 41 29).2 = (41, 29) ∧
    (calculateAntipode 7 180).2 = 0 ∧ (calculateAntipode 7 (-180)).2 = 0 :=
  ⟨c4_antipode_involution.1 41 29 (by norm_num) (by norm_num),
    (c4_antipode_involution.2 7).1, (c4_antipode_involution.2 7).2⟩

/-- C5: for any start and end point and any positive even segment count,
both dig-path builders (the quadratic one of the first copy and the linear
one of the second copy) return exactly `N + 1` points, and the point at
index `N / 2` is exactly the center `(0, 0, 0)`. -/
theorem c5_digPath_count_and_midpoint (s e : V3 ℚ) (N : ℕ)
    (heven : N % 2 = 0) (hpos : 0 < N) :
    (drawDigPathPointsQuad s e N).length = N + 1 ∧
    (drawDigPathPointsLin s e N).length = N + 1 ∧
    (drawDigPathPointsQuad s e N)[N / 2]? = some ⟨0, 0, 0⟩ ∧
    (drawDigPathPointsLin s e N)[N / 2]? = some ⟨0, 0, 0⟩ := by
  obtain ⟨m, rfl⟩ : ∃ m, N = 2 * m := ⟨N / 2, by omega⟩
  have hm : 0 < m := by omega
  have hmQ : (m : ℚ) ≠ 0 := Nat.cast_ne_zero.mpr hm.ne.symm
  have hhalf : (((2 * m : ℕ) : ℚ)) / 2 = (m : ℚ) := by push_cast; ring
  have hidx : 2 * m / 2 = m := by omega
  have hT : ((m : ℚ)) / (((2 * m : ℕ) : ℚ) / 2) = 1 := by rw [hhalf, div_self hmQ]
  have hrange : (List.range (2 * m + 1))[2 * m / 2]? = some m := by
    rw [hidx]
    exact List.getElem?_range (by omega)
  refine ⟨by simp [drawDigPathPointsQuad], by simp [drawDigPathPointsLin], ?_, ?_⟩
  · rw [drawDigPathPointsQuad, List.getElem?_map, hrange]
    simp only [Option.map_some']
    congr 1
    rw [drawDigPathPointQuad, if_pos (by rw [hhalf] : (m : ℚ) ≤ ((2 * m : ℕ) : ℚ) / 2)]
    simp only [hT, V3.mk.injEq]
    refine ⟨by ring, by ring, by ring⟩
  · rw [drawDigPathPointsLin, List.getElem?_map, hrange]
    simp only [Option.map_some']
    congr 1
    rw [drawDigPathPointLin, if_pos (by rw [hhalf] : (m : ℚ) ≤ ((2 * m : ℕ) : ℚ) / 2)]
    simp only [hT, V3.mk.injEq]
    refine ⟨by ring, by ring, by ring⟩

/-- C5 witness: both builders at a concrete start, end and segment count 2. -/
theorem c5_digPath_count_and_midpoint_witness :
    (2 : ℕ) % 2 = 0 ∧ (0 : ℕ) < 2 ∧
    (drawDigPathPointsQuad ⟨1, 2, 3⟩ ⟨4, 5, 6⟩ 2)[1]? = some ⟨0, 0, 0⟩ :=
  ⟨by decide, by decide,
    (c5_digPath_count_and_midpoint ⟨1, 2, 3⟩ ⟨4, 5, 6⟩ 2 (by decide) (by decide)).2.2.1⟩

/-- C2: the reached-core transition never fires.  The digging loop of the
first copy runs frames `k = 0, ..., 60` (it stops once the incremented index
reaches `points.length - 1 = 60`), and on no frame does
`Math.floor((pathIndex / points.length) * 100)` equal 50: the fractional
step `60 / 61` makes the displayed progress jump from 49 (frame 31) to 51
(frame 32), so neither the core status message nor the wider-view camera
move at `progress === 50` is ever triggered. -/
theorem c2_core_threshold_never_hit :
    50 ∉ (List.range 61).map journeyProgress := by
  have closedForm : ∀ k : ℕ, k ≤ 61 → journeyPathIndex k = 60 * k / 61 := by
    intro k
    induction k with
    | zero => intro _; simp [journeyPathIndex]
    | succ n ih =>
      intro hn
      have hle : (n : ℚ) ≤ 60 := by exact_mod_cast (by omega : n ≤ 60)
      rw [journeyPathIndex, ih (by omega)]
      rw [if_neg (by rw [not_le]; simp only [pathSpeed]; linarith)]
      simp only [pathSpeed]
      push_cast
      ring
  have progressForm : ∀ k : ℕ, k ≤ 61 → journeyProgress k = (6000 * (k : ℤ)) / 3721 := by
    intro k hk
    rw [journeyProgress, closedForm k hk]
    have : 60 * (k : ℚ) / 61 / 61 * 100 = ((6000 * (k : ℤ) : ℤ) : ℚ) / ((3721 : ℕ) : ℚ) := by
      push_cast
      ring
    rw [this, Rat.floor_intCast_div_natCast]
    norm_num
  intro hmem
  obtain ⟨k, hk, heq⟩ := List.mem_map.mp hmem
  have hk61 : k ≤ 61 := by
    have := List.mem_range.mp hk
    omega
  rw [progressForm k hk61] at heq
  omega

/-- C3 counterexample: `startJourneyAnimation` of the first copy (line 576)
has no reentrancy guard.  Called on a state whose `isAnimating` flag is
already set, it is not a no-op: it rebuilds the dig path (a second path
group is constructed) and proceeds. -/
theorem c3_first_copy_reentrant_start_not_noop :
    startJourneyAnimationV1 ⟨true, true, true, true, 1, true, []⟩ ≠
        ⟨true, true, true, true, 1, true, []⟩ ∧
    (startJourneyAnimationV1 ⟨true, true, true, true, 1, true, []⟩).digLinesBuilt = 2 := by
  decide

/-- C3 (amended): in the second visualizer copy (line 2465), a call with
`isAnimating` already set is rejected as a logged no-op: it returns `false`
and leaves the state untouched, creating no new path and no traveler. -/
theorem c3_second_copy_rejects_reentrant_start (s : VizStateB)
    (h : s.isAnimating = true) :
    startJourneyAnimationV2 s = (false, s) := by
  unfold startJourneyAnimationV2
  split_ifs <;> rfl

/-- C3 witness: the rejection at a concrete animating state. -/
theorem c3_second_copy_rejects_reentrant_start_witness :
    startJourneyAnimationV2 ⟨true, true, true, 1⟩ = (false, ⟨true, true, true, 1⟩) :=
  c3_second_copy_rejects_reentrant_start ⟨true, true, true, 1⟩ rfl

/-- C6: `reset` of the first copy is idempotent, and it does clear the
`isAnimating` flag; but a completion callback already scheduled by the
journey still fires afterwards: when `reset` is called during the initial
focus-on-start camera animation, the pending callback later emits the
`Beginning to dig...` status message and creates the traveler, i.e. a
journey-scheduled callback mutates journey state and emits a status update
after the reset. -/
theorem c6_status_callback_fires_after_reset :
    resetV1 (resetV1 ⟨false, false, false, false, 0, false, []⟩) =
        resetV1 ⟨false, false, false, false, 0, false, []⟩ ∧
    (startJourneyAnimationV1 ⟨false, true, true, false, 0, false, []⟩).isAnimating
        = true ∧
    (resetV1 (startJourneyAnimationV1
        ⟨false, true, true, false, 0, false, []⟩)).isAnimating = false ∧
    (resetV1 (startJourneyAnimationV1
        ⟨false, true, true, false, 0, false, []⟩)).statusLog = [] ∧
    (focusStartCallbackV1 (resetV1 (startJourneyAnimationV1
        ⟨false, true, true, false, 0, false, []⟩))).statusLog =
        [Msg.beginningToDig] ∧
    (focusStartCallbackV1 (resetV1 (startJourneyAnimationV1
        ⟨false, true, true, false, 0, false, []⟩))).traveler = true := by
  decide

/-- C8: the digging loop never waits for a camera animation.  On any frame
with the path index still in range, the loop advances `pathIndex` by
`pathSpeed` even while a fire-and-forget camera tween is in flight, so a
mid-journey camera move does not block the descent. -/
theorem c8_descent_advances_during_camera_anim (s : FrameState)
    (hc : s.cameraAnimInFlight = true) (hp : s.pathIndex < 60) :
    (animateJourneyAdvance s).pathIndex = s.pathIndex + pathSpeed ∧
    s.pathIndex < (animateJourneyAdvance s).pathIndex ∧
    (animateJourneyAdvance s).cameraAnimInFlight = true := by
  have hspeed : (0 : ℚ) < pathSpeed ∧ pathSpeed < 1 := by norm_num [pathSpeed]
  have hlt : ¬(61 ≤ s.pathIndex + pathSpeed) := by
    rw [not_le]
    linarith [hspeed.2]
  refine ⟨?_, ?_, ?_⟩
  · simp [animateJourneyAdvance, if_neg hlt]
  · simp only [animateJourneyAdvance, if_neg hlt]
    linarith [hspeed.1]
  · simp [animateJourneyAdvance, hc]

/-- C8 witness: the advance at a concrete in-range frame with a camera
animation in flight. -/
theorem c8_descent_advances_during_camera_anim_witness :
    (FrameState.mk 30 true).cameraAnimInFlight = true ∧
    (FrameState.mk 30 true).pathIndex < 60 ∧
    (animateJourneyAdvance ⟨30, true⟩).pathIndex = 30 + pathSpeed :=
  ⟨rfl, by norm_num,
    (c8_descent_advances_during_camera_anim ⟨30, true⟩ rfl (by norm_num)).1⟩

/-- Evaluation of the forward projection at latitude 0, longitude 90,
radius 1: the angles are `pi / 2` and `3 pi / 2`, giving the point
`(0, 0, -1)`. -/
theorem latLngTo3d_at_lng_ninety : latLngTo3d 0 90 1 = ⟨0, 0, -1⟩ := by
  have hphi : ((90 : ℝ) - 0) * (Real.pi / 180) = Real.pi / 2 := by ring
  have htheta : ((90 : ℝ) + 180) * (Real.pi / 180) = Real.pi + Real.pi / 2 := by ring
  simp only [latLngTo3d, hphi, htheta, Real.cos_add, Real.sin_add, Real.cos_pi,
    Real.sin_pi, Real.cos_pi_div_two, Real.sin_pi_div_two, V3.mk.injEq]
  norm_num

/-- Evaluation of the two-argument arctangent on the negative z axis. -/
theorem atan2_neg_one_zero : atan2 (-1) 0 = -(Real.pi / 2) := by
  simp only [atan2]
  norm_num

/-- C1: the inverse conversion is not the algebraic inverse of the forward
projection.  At latitude 0, longitude 90, radius 1,
`pointToLatLng (latLngTo3d 0 90 1)` returns longitude -90, the negation of
the original longitude, and -90 differs from 90 by far more than 1e-6
degrees.  The cause: `latLngTo3d` uses `theta = lng + 180` together with a
negated x component, while `pointToLatLng` reads `atan2(z, x)` directly, so
the recovered longitude is the negation of the original one. -/
theorem c1_inverse_negates_longitude :
    pointToLatLng (latLngTo3d 0 90 1) = ((0 : ℝ), (-90 : ℝ)) ∧ ((-90 : ℝ)) ≠ 90 := by
  constructor
  · rw [latLngTo3d_at_lng_ninety]
    have hlen : vecLength ⟨0, 0, -1⟩ = 1 := by
      simp only [vecLength]
      norm_num
    have hnorm : normalize3 (⟨0, 0, -1⟩ : V3 ℝ) = ⟨0, 0, -1⟩ := by
      simp only [normalize3, hlen, V3.mk.injEq]
      norm_num
    have h90 : Real.arccos 0 * (180 / Real.pi) = 90 := by
      rw [Real.arccos_zero]
      field_simp
      ring
    have h90n : -(Real.pi / 2) * (180 / Real.pi) = -90 := by
      field_simp
      ring
    simp only [pointToLatLng, hnorm]
    rw [h90, atan2_neg_one_zero, h90n]
    rw [if_neg (by norm_num : ¬(180 : ℝ) < -90)]
    norm_num
  · norm_num

/-- C9: the forward projection is total at the poles and yields the finite
points claimed: latitude 90 maps to `(0, radius, 0)` and latitude -90 to
`(0, -radius, 0)`, for every longitude and radius (over the reals no NaN
exists; every value of the embedding is a well-defined real). -/
theorem c9_poles_finite (lng radius : ℝ) :
    latLngTo3d 90 lng radius = ⟨0, radius, 0⟩ ∧
    latLngTo3d (-90) lng radius = ⟨0, -radius, 0⟩ := by
  constructor
  · have h0 : ((90 : ℝ) - 90) * (Real.pi / 180) = 0 := by ring
    simp only [latLngTo3d, h0, Real.sin_zero, Real.cos_zero, V3.mk.injEq]
    norm_num
  · have hpi : ((90 : ℝ) - -90) * (Real.pi / 180) = Real.pi := by ring
    simp only [latLngTo3d, hpi, Real.sin_pi, Real.cos_pi, V3.mk.injEq]
    norm_num

/-- Length of any projected point equals the projection radius: the three
squared components sum to `r ^ 2` by the Pythagorean identities. -/
theorem vecLength_latLngTo3d (lat lng r : ℝ) (hr : 0 ≤ r) :
    vecLength (latLngTo3d lat lng r) = r := by
  simp only [latLngTo3d, vecLength]
  have key :
      (-r * Real.sin ((90 - lat) * (Real.pi / 180)) *
          Real.cos ((lng + 180) * (Real.pi / 180))) ^ 2 +
        (r * Real.cos ((90 - lat) * (Real.pi / 180))) ^ 2 +
        (r * Real.sin ((90 - lat) * (Real.pi / 180)) *
          Real.sin ((lng + 180) * (Real.pi / 180))) ^ 2 = r ^ 2 := by
    calc
      (-r * Real.sin ((90 - lat) * (Real.pi / 180)) *
          Real.cos ((lng + 180) * (Real.pi / 180))) ^ 2 +
        (r * Real.cos ((90 - lat) * (Real.pi / 180))) ^ 2 +
        (r * Real.sin ((90 - lat) * (Real.pi / 180)) *
          Real.sin ((lng + 180) * (Real.pi / 180))) ^ 2
          = r ^ 2 * ((Real.sin ((90 - lat) * (Real.pi / 180))) ^ 2 *
              ((Real.sin ((lng + 180) * (Real.pi / 180))) ^ 2 +
                (Real.cos ((lng + 180) * (Real.pi / 180))) ^ 2) +
              (Real.cos ((90 - lat) * (Real.pi / 180))) ^ 2) := by ring
      _ = r ^ 2 * ((Real.sin ((90 - lat) * (Real.pi / 180))) ^ 2 * 1 +
              (Real.cos ((90 - lat) * (Real.pi / 180))) ^ 2) := by
            rw [Real.sin_sq_add_cos_sq]
      _ = r ^ 2 := by rw [mul_one, Real.sin_sq_add_cos_sq, mul_one]
  rw [key, Real.sqrt_sq hr]

/-- C10: for every latitude and longitude, the position returned by
`setMarkerPosition` has length `1.02 * earthRadius` (strictly above the
surface), the dig-path endpoint has length `earthRadius` exactly, and the
two points are never equal: their distances from the center differ by the
factor 1.02. -/
theorem c10_marker_above_digPath_endpoint (lat lng : ℝ) :
    vecLength (setMarkerPositionPos lat lng) = 1.02 * earthRadius ∧
    vecLength (digPathEndpointPos lat lng) = earthRadius ∧
    setMarkerPositionPos lat lng ≠ digPathEndpointPos lat lng := by
  have hm : vecLength (setMarkerPositionPos lat lng) = 1.02 * earthRadius := by
    simp only [setMarkerPositionPos]
    rw [vecLength_latLngTo3d lat lng _ (by norm_num [earthRadius])]
    ring
  have hd : vecLength (digPathEndpointPos lat lng) = earthRadius := by
    simp only [digPathEndpointPos]
    exact vecLength_latLngTo3d lat lng _ (by norm_num [earthRadius])
  refine ⟨hm, hd, fun heq => ?_⟩
  have hlen := congrArg vecLength heq
  rw [hm, hd] at hlen
  norm_num [earthRadius] at hlen

/-- Easing curve at 0: the first branch gives `4 * 0 ^ 3 = 0`. -/
theorem easeInOutCubic_zero : easeInOutCubic 0 = 0 := by
  norm_num [easeInOutCubic]

/-- Easing curve at the midpoint: the second branch gives
`1 - (-2 * (1/2) + 2) ^ 3 / 2 = 1 / 2`. -/
theorem easeInOutCubic_half : easeInOutCubic (1 / 2) = 1 / 2 := by
  norm_num [easeInOutCubic]

/-- Easing curve at 1: the second branch gives `1 - 0 ^ 3 / 2 = 1`. -/
theorem easeInOutCubic_one : easeInOutCubic 1 = 1 := by
  norm_num [easeInOutCubic]

/-- Linear interpolation at parameter 0 returns the first endpoint. -/
theorem lerpVectors_zero (v w : V3 ℝ) : lerpVectors v w 0 = v := by
  simp only [lerpVectors, mul_zero, add_zero]

/-- Linear interpolation at parameter 1 returns the second endpoint. -/
theorem lerpVectors_one (v w : V3 ℝ) : lerpVectors v w 1 = w := by
  cases w with
  | mk a b c =>
    simp only [lerpVectors, V3.mk.injEq]
    refine ⟨by ring, by ring, by ring⟩

/-- Slerp at parameter 0 returns the first quaternion (the early return of
the renderer). -/
theorem slerpQuaternions_zero (qa qb : Quat) : slerpQuaternions qa qb 0 = qa := by
  simp [slerpQuaternions]

/-- Slerp at parameter 1 returns the second quaternion (the early return of
the renderer). -/
theorem slerpQuaternions_one (qa qb : Quat) : slerpQuaternions qa qb 1 = qb := by
  simp [slerpQuaternions]

/-- Clamped progress at elapsed time 0 is 0. -/
theorem cameraProgress_zero (a : CameraAnim) : cameraProgress a 0 = 0 := by
  simp [cameraProgress]

/-- Clamped progress at half the duration is one half. -/
theorem cameraProgress_half (a : CameraAnim) (hd : 0 < a.duration) :
    cameraProgress a (a.duration / 2) = 1 / 2 := by
  have hne : a.duration ≠ 0 := hd.ne'
  have h : a.duration / 2 / a.duration = 1 / 2 := by
    field_simp
    ring
  simp only [cameraProgress, h]
  norm_num

/-- Clamped progress at the full duration is 1. -/
theorem cameraProgress_full (a : CameraAnim) (hd : 0 < a.duration) :
    cameraProgress a a.duration = 1 := by
  simp only [cameraProgress, div_self hd.ne']
  norm_num

/-- C7: for any fixed start state, target state and positive duration, the
camera animator applies the cubic ease-in-out curve to the clamped progress
and feeds the identical eased value to the position lerp and to the
quaternion slerp on every tick; sampling at elapsed time 0, duration / 2 and
duration yields exactly the start state, the eased midpoint (ease of one
half, which equals one half, applied to both interpolations), and the target
state. -/
theorem c7_camera_sampling (a : CameraAnim) (hd : 0 < a.duration) :
    (∀ elapsed : ℝ,
      cameraPositionAt a elapsed =
        lerpVectors a.startPosition a.targetPosition
          (easeInOutCubic (cameraProgress a elapsed)) ∧
      cameraQuaternionAt a elapsed =
        slerpQuaternions a.startRotation a.endQuat
          (easeInOutCubic (cameraProgress a elapsed))) ∧
    (cameraPositionAt a 0 = a.startPosition ∧
      cameraQuaternionAt a 0 = a.startRotation) ∧
    (easeInOutCubic (cameraProgress a (a.duration / 2)) = 1 / 2 ∧
      cameraPositionAt a (a.duration / 2) =
        lerpVectors a.startPosition a.targetPosition (1 / 2) ∧
      cameraQuaternionAt a (a.duration / 2) =
        slerpQuaternions a.startRotation a.endQuat (1 / 2)) ∧
    (cameraPositionAt a a.duration = a.targetPosition ∧
      cameraQuaternionAt a a.duration = a.endQuat) := by
  have hhalf := cameraProgress_half a hd
  have hfull := cameraProgress_full a hd
  refine ⟨fun e => ⟨rfl, rfl⟩, ⟨?_, ?_⟩, ⟨?_, ?_, ?_⟩, ⟨?_, ?_⟩⟩
  · simp only [cameraPositionAt, cameraProgress_zero, easeInOutCubic_zero,
      lerpVectors_zero]
  · simp only [cameraQuaternionAt, cameraProgress_zero, easeInOutCubic_zero,
      slerpQuaternions_zero]
  · rw [hhalf, easeInOutCubic_half]
  · simp only [cameraPositionAt, hhalf, easeInOutCubic_half]
  · simp only [cameraQuaternionAt, hhalf, easeInOutCubic_half]
  · simp only [cameraPositionAt, hfull, easeInOutCubic_one, lerpVectors_one]
  · simp only [cameraQuaternionAt, hfull, easeInOutCubic_one, slerpQuaternions_one]

/-- C7 witness: sampling at the full duration for a concrete animation of
duration 2 from the origin to `(1, 0, 0)` with identity orientations. -/
theorem c7_camera_sampling_witness :
    (0 : ℝ) < 2 ∧
    cameraPositionAt ⟨⟨0, 0, 0⟩, ⟨1, 0, 0⟩, ⟨0, 0, 0, 1⟩, ⟨0, 0, 0, 1⟩, 2⟩ 2 =
      V3.mk 1 0 0 ∧
    cameraQuaternionAt ⟨⟨0, 0, 0⟩, ⟨1, 0, 0⟩, ⟨0, 0, 0, 1⟩, ⟨0, 0, 0, 1⟩, 2⟩ 2 =
      Quat.mk 0 0 0 1 :=
  ⟨by norm_num,
    (c7_camera_sampling ⟨⟨0, 0, 0⟩, ⟨1, 0, 0⟩, ⟨0, 0, 0, 1⟩, ⟨0, 0, 0, 1⟩, 2⟩
      (by norm_num)).2.2.2.1,
    (c7_camera_sampling ⟨⟨0, 0, 0⟩, ⟨1, 0, 0⟩, ⟨0, 0, 0, 1⟩, ⟨0, 0, 0, 1⟩, 2⟩
      (by norm_num)).2.2.2.2⟩
